import Mathlib

/-!
Verification development for the `querybuilder` package (jQuery QueryBuilder
backend): a shallow embedding of `querybuilder/constants.py`,
`querybuilder/rules.py` and `querybuilder/filters.py`, followed by theorems
about the embedded definitions.

Conventions of the embedding:
* JSON data (the wire format of rules and the raw contents of the
  `validation` dict) is modelled by `QB.JValue`; JSON numbers are modelled
  as exact rationals, matching the decimal literal written on the wire.
* Python runtime values flowing through evaluation are modelled by
  `QB.PyValue` (None, bool, numbers collapsed to `Rat`, str, list, and
  `datetime.time` values produced by the `Type.TIME` converter).
* Fallible Python code is modelled in the `Except QB.PyErr` /
  `Except QB.ParseErr` monads; each raised exception class used by the
  source is a `PyErr` constructor.
-/

namespace QB

/-- The `Conditions` enum of `querybuilder/constants.py` (imported as `Condition`). -/
inductive Condition where
  | AND
  | OR
deriving DecidableEq, Repr

/-- The `.value` of a `Condition` member. -/
def Condition.value : Condition → String
  | .AND => "AND"
  | .OR => "OR"

/-- The `Inputs` enum of `querybuilder/constants.py` (imported as `Input`). -/
inductive Input where
  | TEXT
  | NUMBER
  | TEXTAREA
  | RADIO'
  | CHECKBOX
  | SELECT
deriving DecidableEq, Repr

/-- The `.value` of an `Input` member. -/
def Input.value : Input → String
  | .TEXT => "text"
  | .NUMBER => "number"
  | .TEXTAREA => "textarea"
  | .RADIO' => "radio"
  | .CHECKBOX => "checkbox"
  | .SELECT => "select"

/-- The `Types` enum of `querybuilder/constants.py` (imported as `Type`;
named `Type'` here because `Type` is a Lean keyword). -/
inductive Type' where
  | STRING
  | INTEGER
  | DOUBLE
  | DATE
  | TIME
  | DATETIME
  | BOOLEAN
deriving DecidableEq, Repr

/-- The `.value` of a `Type'` member. -/
def Type'.value : Type' → String
  | .STRING => "string"
  | .INTEGER => "integer"
  | .DOUBLE => "double"
  | .DATE => "date"
  | .TIME => "time"
  | .DATETIME => "datetime"
  | .BOOLEAN => "boolean"

/-- The `Operators` enum of `querybuilder/constants.py` (imported as `Operator`). -/
inductive Operator where
  | IS_NULL
  | IS_NOT_NULL
  | EQUAL
  | NOT_EQUAL
  | LESS
  | LESS_OR_EQUAL
  | GREATER
  | GREATER_OR_EQUAL
  | BETWEEN
  | NOT_BETWEEN
  | BEGINS_WITH
  | NOT_BEGINS_WITH
  | ENDS_WITH
  | NOT_ENDS_WITH
  | IN
  | NOT_IN
  | IS_EMPTY
  | IS_NOT_EMPTY
  | CONTAINS
  | NOT_CONTAINS
deriving DecidableEq, Repr

/-- The `.value` of an `Operator` member. -/
def Operator.value : Operator → String
  | .IS_NULL => "is_null"
  | .IS_NOT_NULL => "is_not_null"
  | .EQUAL => "equal"
  | .NOT_EQUAL => "not_equal"
  | .LESS => "less"
  | .LESS_OR_EQUAL => "less_or_equal"
  | .GREATER => "greater"
  | .GREATER_OR_EQUAL => "greater_or_equal"
  | .BETWEEN => "between"
  | .NOT_BETWEEN => "not_between"
  | .BEGINS_WITH => "begins_with"
  | .NOT_BEGINS_WITH => "not_begins_with"
  | .ENDS_WITH => "ends_with"
  | .NOT_ENDS_WITH => "not_ends_with"
  | .IN => "in"
  | .NOT_IN => "not_in"
  | .IS_EMPTY => "is_empty"
  | .IS_NOT_EMPTY => "is_not_empty"
  | .CONTAINS => "contains"
  | .NOT_CONTAINS => "not_contains"

/-- The `Operators.unary_comparisons` from `constants.py`. -/
def Operator.unary_comparisons : List Operator := [.IS_NULL, .IS_NOT_NULL]

/-- The `Operators.binary_comparisons` from `constants.py`. -/
def Operator.binary_comparisons : List Operator :=
  [.EQUAL, .NOT_EQUAL, .LESS, .LESS_OR_EQUAL, .GREATER, .GREATER_OR_EQUAL]

/-- The `Operators.ternary_comparisons` from `constants.py`. -/
def Operator.ternary_comparisons : List Operator := [.BETWEEN, .NOT_BETWEEN]

/-- The `Operators.string_comparisons` from `constants.py`. -/
def Operator.string_comparisons : List Operator :=
  [.BEGINS_WITH, .NOT_BEGINS_WITH, .ENDS_WITH, .NOT_ENDS_WITH]

/-- The `Operators.collection_comparisons` from `constants.py`. -/
def Operator.collection_comparisons : List Operator :=
  [.IN, .NOT_IN, .IS_EMPTY, .IS_NOT_EMPTY, .CONTAINS, .NOT_CONTAINS]

/-- A JSON value, as produced by `json.loads` on the rule wire format.
Numbers are modelled as exact rationals (the value of the decimal literal
on the wire); objects are association lists with pairwise distinct keys. -/
inductive JValue where
  | null
  | bool (b : Bool)
  | num (q : Rat)
  | str (s : String)
  | arr (xs : List JValue)
  | obj (kvs : List (String × JValue))
deriving Repr

/-- Python `dict.__getitem__` / `dict.get` on a JSON object: look a key up. -/
def jlookup (k : String) : List (String × JValue) → Option JValue
  | [] => none
  | (k', v) :: rest => if k' = k then some v else jlookup k rest

/-- Python `key in dict` on a JSON object. -/
def hasKey (k : String) (kvs : List (String × JValue)) : Bool :=
  (jlookup k kvs).isSome

/-- Python truthiness of a JSON-decoded value (`if rule.get('empty'):`). -/
def JValue.truthy : JValue → Bool
  | .null => false
  | .bool b => b
  | .num q => q != 0
  | .str s => s ≠ ""
  | .arr xs => !xs.isEmpty
  | .obj kvs => !kvs.isEmpty

/-- Python `rule.get(k)` followed by truthiness (missing key is `None`,
hence falsy). -/
def getTruthy (k : String) (kvs : List (String × JValue)) : Bool :=
  match jlookup k kvs with
  | some v => v.truthy
  | none => false

/-- Is this JSON value a Python `dict` (`isinstance(rule, dict)`)? -/
def JValue.isObj : JValue → Bool
  | .obj _ => true
  | _ => false

/-- The `Condition(x)`: parse a raw JSON value into the `Condition` enum; an
unrecognized value raises `ValueError` (modelled as `none`). -/
def parseCondition : JValue → Option Condition
  | .str "AND" => some .AND
  | .str "OR" => some .OR
  | _ => none

/-- Value-to-member lookup used by the `Enum(value)` constructor calls:
walk the member list and return the member whose `.value` matches. -/
def enumLookup {α : Type} (s : String) : List (String × α) → Option α
  | [] => none
  | (k, v) :: rest => if s = k then some v else enumLookup s rest

/-- The `Input(x)`: parse a raw JSON value into the `Input` enum. -/
def parseInput : JValue → Option Input
  | .str s => enumLookup s [("text", .TEXT), ("number", .NUMBER),
      ("textarea", .TEXTAREA), ("radio", .RADIO'), ("checkbox", .CHECKBOX),
      ("select", .SELECT)]
  | _ => none

/-- The `Type(x)`: parse a raw JSON value into the `Type` enum. -/
def parseType : JValue → Option Type'
  | .str s => enumLookup s [("string", .STRING), ("integer", .INTEGER),
      ("double", .DOUBLE), ("date", .DATE), ("time", .TIME),
      ("datetime", .DATETIME), ("boolean", .BOOLEAN)]
  | _ => none

/-- The `Operator(x)`: parse a raw JSON value into the `Operator` enum. -/
def parseOperator : JValue → Option Operator
  | .str s => enumLookup s [("is_null", .IS_NULL), ("is_not_null", .IS_NOT_NULL),
      ("equal", .EQUAL), ("not_equal", .NOT_EQUAL), ("less", .LESS),
      ("less_or_equal", .LESS_OR_EQUAL), ("greater", .GREATER),
      ("greater_or_equal", .GREATER_OR_EQUAL), ("between", .BETWEEN),
      ("not_between", .NOT_BETWEEN), ("begins_with", .BEGINS_WITH),
      ("not_begins_with", .NOT_BEGINS_WITH), ("ends_with", .ENDS_WITH),
      ("not_ends_with", .NOT_ENDS_WITH), ("in", .IN), ("not_in", .NOT_IN),
      ("is_empty", .IS_EMPTY), ("is_not_empty", .IS_NOT_EMPTY),
      ("contains", .CONTAINS), ("not_contains", .NOT_CONTAINS)]
  | _ => none

/-- The six fields of a leaf rule (`Rule.rule_fields` in `rules.py`). -/
def rule_fields : List String := ["id", "field", "input", "operator", "type", "value"]

/-- The two fields of a group rule (`Rule.group_fields` in `rules.py`). -/
def group_fields : List String := ["condition", "rules"]

/-- The leaf payload of a rule: `id`, `field` and `value` are stored raw
(`rules.py` lines 100, 101, 105), while `input`, `operator` and `type` are
parsed into their enums (lines 102-104). -/
structure Leaf where
  id : JValue
  field : JValue
  input : Input
  operator : Operator
  type' : Type'
  value : JValue

/-- A parsed `Rule` object: exactly one of the three shapes
empty / group / leaf is active (`rules.py` `Rule.__init__`). -/
inductive Rule where
  | empty
  | group (condition : Condition) (rules : List Rule)
  | leaf (l : Leaf)

/-- The `ValidationError` raised by `Rule.__init__` (the message distinguishes
the raise sites of the source; enum `ValueError`s are converted to
`ValidationError` by the `except ValueError` clause). -/
inductive ParseErr where
  | notDict
  | rulesNotList
  | missingFields
  | badEnum (which : String)
deriving DecidableEq, Repr

/-- A value found by `jlookup` is a strict subterm of the object. -/
theorem jlookup_sizeOf {k : String} {kvs : List (String × JValue)} {v : JValue}
    (h : jlookup k kvs = some v) : sizeOf v < sizeOf kvs := by
  induction kvs with
  | nil => simp [jlookup] at h
  | cons p rest ih =>
    obtain ⟨k', v'⟩ := p
    by_cases hk : k' = k
    · simp [jlookup, hk] at h
      subst h
      simp
      omega
    · simp [jlookup, hk] at h
      have := ih h
      simp
      omega

mutual

/-- The `Rule.__init__` of `rules.py`: classify a raw JSON value as an empty,
group or leaf rule, raising `ValidationError` otherwise.  Order of
checks mirrors the source: non-dict rejection, truthy `empty` key, group
field-set, leaf field-set, else failure. -/
def parseRule : JValue → Except ParseErr Rule
  | .obj kvs =>
    if getTruthy "empty" kvs then
      .ok .empty
    else if hasKey "condition" kvs && hasKey "rules" kvs then
      match parseCondition ((jlookup "condition" kvs).getD .null) with
      | none => .error (.badEnum "Condition")
      | some c =>
        match h : jlookup "rules" kvs with
        | some (.arr children) =>
          (parseRuleList children).map (fun rs => .group c rs)
        | some _ => .error .rulesNotList
        | none => .error .rulesNotList
    else if (rule_fields.all (fun k => hasKey k kvs)) then
      match parseInput ((jlookup "input" kvs).getD .null) with
      | none => .error (.badEnum "Input")
      | some i =>
        match parseOperator ((jlookup "operator" kvs).getD .null) with
        | none => .error (.badEnum "Operator")
        | some op =>
          match parseType ((jlookup "type" kvs).getD .null) with
          | none => .error (.badEnum "Type")
          | some t =>
            .ok (.leaf {
              id := (jlookup "id" kvs).getD .null
              field := (jlookup "field" kvs).getD .null
              input := i
              operator := op
              type' := t
              value := (jlookup "value" kvs).getD .null })
    else
      .error .missingFields
  | _ => .error .notDict
termination_by j => sizeOf j
decreasing_by
  have h1 := jlookup_sizeOf h
  simp at h1 ⊢
  omega

/-- The list comprehension `[Rule(rule) for rule in rule['rules']]`: parse the children of a group
in sequence, propagating the first failure. -/
def parseRuleList : List JValue → Except ParseErr (List Rule)
  | [] => .ok []
  | j :: rest => do
    let r ← parseRule j
    let rs ← parseRuleList rest
    .ok (r :: rs)
termination_by l => sizeOf l
decreasing_by
  all_goals simp
  all_goals omega

end

mutual

/-- The `Rule.to_dict` of `rules.py`: re-emit the JSON object for a rule,
with exactly the key set of the active shape, in source emission order. -/
def Rule.to_dict : Rule → JValue
  | .empty => .obj [("empty", .bool true)]
  | .group c rs => .obj [("condition", .str c.value), ("rules", .arr (toDictList rs))]
  | .leaf l => .obj [
      ("id", l.id),
      ("field", l.field),
      ("input", .str l.input.value),
      ("operator", .str l.operator.value),
      ("type", .str l.type'.value),
      ("value", l.value)]

/-- The list comprehension `[rule.to_dict() for rule in self.rules]`. -/
def toDictList : List Rule → List JValue
  | [] => []
  | r :: rs => r.to_dict :: toDictList rs

end

mutual

/-- Python `==` on JSON-decoded values.  Structural, except that booleans
compare equal to the numbers 0/1 (Python `bool` is an `int` subtype). -/
def jvalEq : JValue → JValue → Bool
  | .null, .null => true
  | .bool a, .bool b => a == b
  | .bool a, .num b => (if a then (1 : Rat) else 0) == b
  | .num a, .bool b => a == (if b then (1 : Rat) else 0)
  | .num a, .num b => a == b
  | .str a, .str b => a == b
  | .arr a, .arr b => jvalListEq a b
  | .obj a, .obj b => jvalObjEq a b
  | _, _ => false

/-- Python `==` on lists of JSON values: element-wise. -/
def jvalListEq : List JValue → List JValue → Bool
  | [], [] => true
  | a :: as', b :: bs' => jvalEq a b && jvalListEq as' bs'
  | _, _ => false

/-- Python `==` on JSON objects.  Python dict equality ignores insertion
order; our objects are compared entry-wise, which agrees with dict
equality whenever the two objects list their keys in the same order (in
particular for the reflexive comparisons of the round-trip law). -/
def jvalObjEq : List (String × JValue) → List (String × JValue) → Bool
  | [], [] => true
  | (k, v) :: as', (k', v') :: bs' => k == k' && jvalEq v v' && jvalObjEq as' bs'
  | _, _ => false

end

/-- The `Rule.__eq__` on leaf payloads: all six fields must be equal; the enum
fields compare by enum identity, the raw fields by Python `==`. -/
def leafEq (a b : Leaf) : Bool :=
  jvalEq a.id b.id && jvalEq a.field b.field && a.input == b.input
    && a.operator == b.operator && a.type' == b.type' && jvalEq a.value b.value

mutual

/-- The `Rule.__eq__` of `rules.py`: rules of different shape are unequal
(the `is_empty`/`is_group` flag comparison), empty rules are always
equal, groups compare condition and child lists, leaves compare the six
fields. -/
def ruleEq : Rule → Rule → Bool
  | .empty, .empty => true
  | .group c xs, .group d ys => c == d && ruleListEq xs ys
  | .leaf a, .leaf b => leafEq a b
  | _, _ => false

/-- Python `==` on lists of rules: element-wise `Rule.__eq__`. -/
def ruleListEq : List Rule → List Rule → Bool
  | [], [] => true
  | x :: xs, y :: ys => ruleEq x y && ruleListEq xs ys
  | _, _ => false

end

/-- Strong induction principle for `Rule` (children of a group are covered
by the inductive hypothesis). -/
theorem Rule.strongInd (motive : Rule → Prop) (hempty : motive .empty)
    (hgroup : ∀ c xs, (∀ x ∈ xs, motive x) → motive (.group c xs))
    (hleaf : ∀ l, motive (.leaf l)) : ∀ r, motive r
  | .empty => hempty
  | .group c xs => hgroup c xs (fun x hx =>
      have : sizeOf x < sizeOf (Rule.group c xs) := by
        have := List.sizeOf_lt_of_mem hx
        simp
        omega
      Rule.strongInd motive hempty hgroup hleaf x)
  | .leaf l => hleaf l
termination_by r => sizeOf r

mutual

/-- Python `==` is reflexive on JSON values. -/
theorem jvalEq_refl : ∀ v : JValue, jvalEq v v = true
  | .null => by simp [jvalEq]
  | .bool b => by simp [jvalEq]
  | .num q => by simp [jvalEq]
  | .str s => by simp [jvalEq]
  | .arr xs => by simp [jvalEq, jvalListEq_refl xs]
  | .obj kvs => by simp [jvalEq, jvalObjEq_refl kvs]

/-- Element-wise Python `==` is reflexive on JSON lists. -/
theorem jvalListEq_refl : ∀ xs : List JValue, jvalListEq xs xs = true
  | [] => by simp [jvalListEq]
  | x :: xs => by simp [jvalListEq, jvalEq_refl x, jvalListEq_refl xs]

/-- Entry-wise Python `==` is reflexive on JSON objects. -/
theorem jvalObjEq_refl : ∀ kvs : List (String × JValue), jvalObjEq kvs kvs = true
  | [] => by simp [jvalObjEq]
  | (k, v) :: kvs => by simp [jvalObjEq, jvalEq_refl v, jvalObjEq_refl kvs]

end

/-- Reflexivity of `Rule.__eq__`. -/
theorem ruleEq_refl : ∀ r : Rule, ruleEq r r = true := by
  intro r
  induction r using Rule.strongInd with
  | hempty => simp [ruleEq]
  | hgroup c xs ih =>
    simp only [ruleEq, Bool.and_eq_true, beq_self_eq_true, true_and]
    induction xs with
    | nil => simp [ruleListEq]
    | cons x xs ihl =>
      simp only [ruleListEq, Bool.and_eq_true]
      exact ⟨ih x (by simp), ihl (fun y hy => ih y (by simp [hy]))⟩
  | hleaf l => simp [ruleEq, leafEq, jvalEq_refl]

/-- Round trip of the `Condition` enum through its string value. -/
theorem parseCondition_value (c : Condition) :
    parseCondition (.str c.value) = some c := by
  cases c <;> rfl

/-- Round trip of the `Input` enum through its string value. -/
theorem parseInput_value (i : Input) : parseInput (.str i.value) = some i := by
  cases i <;> rfl

/-- Round trip of the `Type` enum through its string value. -/
theorem parseType_value (t : Type') : parseType (.str t.value) = some t := by
  cases t <;> rfl

/-- Round trip of the `Operator` enum through its string value. -/
theorem parseOperator_value (op : Operator) :
    parseOperator (.str op.value) = some op := by
  cases op <;> rfl

mutual

/-- Re-parsing the serialization of a rule reconstructs it exactly. -/
theorem parseRule_to_dict : ∀ r : Rule, parseRule (Rule.to_dict r) = .ok r
  | .empty => by
    simp [Rule.to_dict, parseRule, getTruthy, jlookup, JValue.truthy]
  | .group c rs => by
    have hrec := parseRuleList_toDictList rs
    simp [Rule.to_dict, parseRule, getTruthy, jlookup, hasKey, rule_fields,
      parseCondition_value, hrec]
    rfl
  | .leaf l => by
    simp [Rule.to_dict, parseRule, getTruthy, jlookup, hasKey, rule_fields,
      parseInput_value, parseOperator_value, parseType_value]

/-- Re-parsing the serialized children of a group reconstructs them. -/
theorem parseRuleList_toDictList : ∀ rs : List Rule,
    parseRuleList (toDictList rs) = .ok rs
  | [] => by simp [toDictList, parseRuleList]
  | r :: rs => by
    have h1 := parseRule_to_dict r
    have h2 := parseRuleList_toDictList rs
    simp [toDictList, parseRuleList, h1, h2]
    rfl

end

/-- The key list of a serialized rule object. -/
def dictKeys : JValue → List String
  | .obj kvs => kvs.map Prod.fst
  | _ => []

/-- The field set `to_dict` is expected to emit for each rule shape. -/
def shapeKeys : Rule → List String
  | .empty => ["empty"]
  | .group _ _ => group_fields
  | .leaf _ => rule_fields

/-- C2: for every valid `Rule` tree `r`, re-parsing its serialization
yields a structurally equal tree — `Rule(r.to_dict())` succeeds, returns
`r` itself, and in particular is `__eq__`-equal to `r` (with `__eq__`
recursive over shapes, conditions, ordered child lists and the six leaf
fields); and `to_dict` emits exactly the key set matching the node's
shape. -/
theorem qb_c2 (r : Rule) :
    parseRule (Rule.to_dict r) = .ok r
    ∧ (parseRule (Rule.to_dict r)).map (fun r2 => ruleEq r2 r) = .ok true
    ∧ dictKeys (Rule.to_dict r) = shapeKeys r := by
  refine ⟨parseRule_to_dict r, ?_, ?_⟩
  · rw [parseRule_to_dict r]
    simp [Except.map, ruleEq_refl]
  · cases r <;> rfl

/-- A value that is not a dict is rejected by the `isinstance` check at
the top of `Rule.__init__`. -/
theorem parseRule_not_obj : ∀ j : JValue, j.isObj = false →
    parseRule j = .error .notDict := by
  intro j hj
  cases j <;> simp_all [JValue.isObj, parseRule]

/-- C3: `Rule.__init__` rejects with `ValidationError` each of:
`{"incorrect": "data"}`, `{}`, `{"condition": "AND"}` (missing `rules`),
`{"condition": "AND", "rules": "x"}` (`rules` not a list), a leaf object
missing any one of the six required fields, a leaf whose `input`,
`operator` or `type` is not a recognized enum value, and any input that
is not an object; while `{"empty": true}` and
`{"condition": "OR", "rules": []}` construct successfully. -/
theorem qb_c3 :
    parseRule (.obj [("incorrect", .str "data")]) = .error .missingFields
    ∧ parseRule (.obj []) = .error .missingFields
    ∧ parseRule (.obj [("condition", .str "AND")]) = .error .missingFields
    ∧ parseRule (.obj [("condition", .str "AND"), ("rules", .str "x")])
        = .error .rulesNotList
    ∧ parseRule (.obj [("field", .str "name"), ("input", .str "text"),
        ("operator", .str "equal"), ("type", .str "string"),
        ("value", .str "henry")]) = .error .missingFields
    ∧ parseRule (.obj [("id", .str "name"), ("input", .str "text"),
        ("operator", .str "equal"), ("type", .str "string"),
        ("value", .str "henry")]) = .error .missingFields
    ∧ parseRule (.obj [("id", .str "name"), ("field", .str "name"),
        ("operator", .str "equal"), ("type", .str "string"),
        ("value", .str "henry")]) = .error .missingFields
    ∧ parseRule (.obj [("id", .str "name"), ("field", .str "name"),
        ("input", .str "text"), ("type", .str "string"),
        ("value", .str "henry")]) = .error .missingFields
    ∧ parseRule (.obj [("id", .str "name"), ("field", .str "name"),
        ("input", .str "text"), ("operator", .str "equal"),
        ("value", .str "henry")]) = .error .missingFields
    ∧ parseRule (.obj [("id", .str "name"), ("field", .str "name"),
        ("input", .str "text"), ("operator", .str "equal"),
        ("type", .str "string")]) = .error .missingFields
    ∧ parseRule (.obj [("id", .str "name"), ("field", .str "name"),
        ("input", .str "fake_input"), ("operator", .str "equal"),
        ("type", .str "string"), ("value", .str "henry")])
        = .error (.badEnum "Input")
    ∧ parseRule (.obj [("id", .str "name"), ("field", .str "name"),
        ("input", .str "text"), ("operator", .str "fake_operator"),
        ("type", .str "string"), ("value", .str "henry")])
        = .error (.badEnum "Operator")
    ∧ parseRule (.obj [("id", .str "name"), ("field", .str "name"),
        ("input", .str "text"), ("operator", .str "equal"),
        ("type", .str "fake_type"), ("value", .str "henry")])
        = .error (.badEnum "Type")
    ∧ (∀ j : JValue, j.isObj = false → parseRule j = .error .notDict)
    ∧ parseRule (.obj [("empty", .bool true)]) = .ok .empty
    ∧ parseRule (.obj [("condition", .str "OR"), ("rules", .arr [])])
        = .ok (.group .OR []) := by
  refine ⟨?_, ?_, ?_, ?_, ?_, ?_, ?_, ?_, ?_, ?_, ?_, ?_, ?_,
    parseRule_not_obj, ?_, ?_⟩
  all_goals
    simp [parseRule, getTruthy, jlookup, hasKey, rule_fields, parseCondition,
      parseInput, parseOperator, parseType, parseRuleList, JValue.truthy,
      enumLookup]
  all_goals rfl

/-- Witness for the universally quantified part of the C3 theorem: the
bare string `"x"` is not an object and is rejected. -/
theorem qb_c3_witness :
    (JValue.str "x").isObj = false
    ∧ parseRule (.str "x") = .error .notDict :=
  ⟨rfl, qb_c3.2.2.2.2.2.2.2.2.2.2.2.2.2.1 (.str "x") rfl⟩

mutual

/-- The `Rule.is_valid` of `rules.py`.  A group dispatches through
`python_conditions = {AND: all, OR: any}` over the generator of its
children's results; an empty rule is `True`; a leaf delegates to
`filters.run_filter_for_rule` — abstracted here as `leafEval`, the
evaluation the host's `Filters` instance performs for a leaf (it may
raise, hence the `Except`). -/
def Rule.is_valid {ε : Type} (leafEval : Leaf → Except ε Bool) : Rule → Except ε Bool
  | .group c rs =>
    match c with
    | .AND => allValid leafEval rs
    | .OR => anyValid leafEval rs
  | .empty => .ok true
  | .leaf l => leafEval l

/-- Python `all()` over the generator of child results: short-circuits on
the first `False`, propagates a raised exception, vacuously `True`. -/
def allValid {ε : Type} (leafEval : Leaf → Except ε Bool) : List Rule → Except ε Bool
  | [] => .ok true
  | r :: rs => do
    if (← Rule.is_valid leafEval r) then allValid leafEval rs else .ok false

/-- Python `any()` over the generator of child results: short-circuits on
the first `True`, propagates a raised exception, vacuously `False`. -/
def anyValid {ε : Type} (leafEval : Leaf → Except ε Bool) : List Rule → Except ε Bool
  | [] => .ok false
  | r :: rs => do
    if (← Rule.is_valid leafEval r) then .ok true else anyValid leafEval rs

end

/-- A leaf evaluation that returns a boolean for every leaf (a host whose
accessors and operator evaluations all succeed), lifted into `Except`. -/
def okEval {ε : Type} (f : Leaf → Bool) : Leaf → Except ε Bool :=
  fun l => .ok (f l)

mutual

/-- Pure counterpart of `is_valid` under a total boolean leaf evaluation. -/
def pureValid (f : Leaf → Bool) : Rule → Bool
  | .empty => true
  | .group .AND rs => allPure f rs
  | .group .OR rs => anyPure f rs
  | .leaf l => f l

/-- Pure counterpart of `all()` over children. -/
def allPure (f : Leaf → Bool) : List Rule → Bool
  | [] => true
  | r :: rs => pureValid f r && allPure f rs

/-- Pure counterpart of `any()` over children. -/
def anyPure (f : Leaf → Bool) : List Rule → Bool
  | [] => false
  | r :: rs => pureValid f r || anyPure f rs

end

mutual

/-- Under a never-raising leaf evaluation, `is_valid` never raises and
computes the pure combination. -/
theorem is_valid_okEval {ε : Type} (f : Leaf → Bool) :
    ∀ r : Rule, Rule.is_valid (okEval (ε := ε) f) r = .ok (pureValid f r)
  | .empty => by simp [Rule.is_valid, pureValid]
  | .group c rs => by
    cases c
    · simp [Rule.is_valid, pureValid, allValid_okEval (ε := ε) f rs]
    · simp [Rule.is_valid, pureValid, anyValid_okEval (ε := ε) f rs]
  | .leaf l => by simp [Rule.is_valid, pureValid, okEval]

/-- Under a never-raising leaf evaluation, `all()` computes `allPure`. -/
theorem allValid_okEval {ε : Type} (f : Leaf → Bool) :
    ∀ rs : List Rule, allValid (okEval (ε := ε) f) rs = .ok (allPure f rs)
  | [] => by simp [allValid, allPure]
  | r :: rs => by
    simp [allValid, allPure, is_valid_okEval (ε := ε) f r,
      allValid_okEval (ε := ε) f rs]
    cases pureValid f r <;> rfl

/-- Under a never-raising leaf evaluation, `any()` computes `anyPure`. -/
theorem anyValid_okEval {ε : Type} (f : Leaf → Bool) :
    ∀ rs : List Rule, anyValid (okEval (ε := ε) f) rs = .ok (anyPure f rs)
  | [] => by simp [anyValid, anyPure]
  | r :: rs => by
    simp [anyValid, anyPure, is_valid_okEval (ε := ε) f r,
      anyValid_okEval (ε := ε) f rs]
    cases pureValid f r <;> rfl

end

/-- Lemma: `allPure` agrees with `List.all`. -/
theorem allPure_eq_all (f : Leaf → Bool) :
    ∀ rs : List Rule, allPure f rs = rs.all (pureValid f)
  | [] => by simp [allPure]
  | r :: rs => by simp [allPure, allPure_eq_all f rs]

/-- Lemma: `anyPure` agrees with `List.any`. -/
theorem anyPure_eq_any (f : Leaf → Bool) :
    ∀ rs : List Rule, anyPure f rs = rs.any (pureValid f)
  | [] => by simp [anyPure]
  | r :: rs => by simp [anyPure, anyPure_eq_any f rs]

/-- C1: for every Filters host whose leaf evaluations return booleans
(modelled as a total boolean function on leaves), `is_valid` is `True` on
an empty rule; on an AND group it is `True` iff every child's `is_valid`
is `True` (vacuously `True` on no children); on an OR group it is `True`
iff some child's `is_valid` is `True` (vacuously `False` on no children),
the children being combined in their sequence order by Python
`all()` / `any()`. -/
theorem qb_c1 {ε : Type} (f : Leaf → Bool) (rs : List Rule) :
    Rule.is_valid (okEval (ε := ε) f) .empty = .ok true
    ∧ (Rule.is_valid (okEval (ε := ε) f) (.group .AND rs) = .ok true
        ↔ ∀ r ∈ rs, Rule.is_valid (okEval (ε := ε) f) r = .ok true)
    ∧ (Rule.is_valid (okEval (ε := ε) f) (.group .OR rs) = .ok true
        ↔ ∃ r ∈ rs, Rule.is_valid (okEval (ε := ε) f) r = .ok true)
    ∧ Rule.is_valid (okEval (ε := ε) f) (.group .AND []) = .ok true
    ∧ Rule.is_valid (okEval (ε := ε) f) (.group .OR []) = .ok false := by
  have hk : ∀ r : Rule, Rule.is_valid (okEval (ε := ε) f) r = .ok (pureValid f r) :=
    is_valid_okEval f
  refine ⟨hk .empty, ?_, ?_, hk (.group .AND []), hk (.group .OR [])⟩
  · rw [hk (.group .AND rs)]
    simp only [pureValid, allPure_eq_all, Except.ok.injEq, List.all_eq_true]
    constructor
    · intro h r hr
      rw [hk r, h r hr]
    · intro h r hr
      have := h r hr
      rw [hk r] at this
      exact Except.ok.inj this
  · rw [hk (.group .OR rs)]
    simp only [pureValid, anyPure_eq_any, Except.ok.injEq, List.any_eq_true]
    constructor
    · intro h
      obtain ⟨r, hr, hv⟩ := h
      exact ⟨r, hr, by rw [hk r, hv]⟩
    · intro h
      obtain ⟨r, hr, hv⟩ := h
      rw [hk r] at hv
      exact ⟨r, hr, Except.ok.inj hv⟩

/-- Python exceptions raised by the evaluation layer of `filters.py`.
`keyError` is the `KeyError` raised by dict indexing (a `LookupError`);
`invalidOperation` is `decimal.InvalidOperation`. -/
inductive PyErr where
  | typeError
  | valueError
  | keyError
  | attributeError
  | invalidOperation
deriving DecidableEq, Repr

/-- A Python runtime value during rule evaluation: `None`, bool, numbers
(`int` / `float` / `Decimal` collapsed to an exact rational — floats in
this development are decimal literals, see the header note), `str`,
`list`/`tuple`, and the `datetime.time` produced by the `Type.TIME`
converter (hour-only, as `time(h)` builds). -/
inductive PyValue where
  | none
  | bool (b : Bool)
  | num (q : Rat)
  | str (s : String)
  | list (xs : List PyValue)
  | timeVal (h : Int)
deriving Repr

/-- Numeric value of a Python bool (`bool` is an `int` subtype). -/
def boolNum (b : Bool) : Rat := if b then 1 else 0

mutual

/-- Python `==` on runtime values: numeric kinds compare by value
(including bools), strings and lists structurally; values of unrelated
types compare unequal without raising. -/
def pyEq : PyValue → PyValue → Bool
  | .none, .none => true
  | .bool a, .bool b => a == b
  | .bool a, .num b => boolNum a == b
  | .num a, .bool b => a == boolNum b
  | .num a, .num b => a == b
  | .str a, .str b => a == b
  | .list a, .list b => pyListEq a b
  | .timeVal a, .timeVal b => a == b
  | _, _ => false

/-- Python `==` on lists: element-wise. -/
def pyListEq : List PyValue → List PyValue → Bool
  | [], [] => true
  | a :: as', b :: bs' => pyEq a b && pyListEq as' bs'
  | _, _ => false

end

mutual

/-- Python 3 `<` on runtime values: numeric kinds (including bools) by
value, strings lexicographically, lists lexicographically, `time` by
value; any other combination raises `TypeError`. -/
def pyLt : PyValue → PyValue → Except PyErr Bool
  | .num a, .num b => .ok (decide (a < b))
  | .num a, .bool b => .ok (decide (a < boolNum b))
  | .bool a, .num b => .ok (decide (boolNum a < b))
  | .bool a, .bool b => .ok (decide (boolNum a < boolNum b))
  | .str a, .str b => .ok (decide (a < b))
  | .list a, .list b => pyListLt a b
  | .timeVal a, .timeVal b => .ok (decide (a < b))
  | _, _ => .error .typeError

/-- Python `<` on lists: find the first index where elements differ under
`==`; order by `<` there, a strict prefix being smaller. -/
def pyListLt : List PyValue → List PyValue → Except PyErr Bool
  | [], [] => .ok false
  | [], _ :: _ => .ok true
  | _ :: _, [] => .ok false
  | a :: as', b :: bs' => if pyEq a b then pyListLt as' bs' else pyLt a b

end

/-- Python `sub in s` on strings: substring containment. -/
def strContains (s sub : String) : Bool :=
  sub.isEmpty || (s.splitOn sub).length > 1

/-- Python `lop in rop`: substring test when `rop` is a string (`lop` must
then be a string too), element containment by `==` when `rop` is a list;
any other `rop` is not a container and raises `TypeError`. -/
def pyIn (lop rop : PyValue) : Except PyErr Bool :=
  match rop with
  | .str s =>
    match lop with
    | .str sub => .ok (strContains s sub)
    | _ => .error .typeError
  | .list xs => .ok (xs.any (fun x => pyEq lop x))
  | _ => .error .typeError

/-- Python `len`: defined on strings and lists, `TypeError` otherwise. -/
def pyLen : PyValue → Except PyErr Nat
  | .str s => .ok s.length
  | .list xs => .ok xs.length
  | _ => .error .typeError

/-- Python `lop.startswith(rop)`: a non-string `lop` has no such attribute
(`AttributeError`); a non-string argument raises `TypeError`. -/
def pyStartswith : PyValue → PyValue → Except PyErr Bool
  | .str a, .str b => .ok (a.startsWith b)
  | .str _, _ => .error .typeError
  | _, _ => .error .attributeError

/-- Python `lop.endswith(rop)`, with the same failure modes as `startswith`. -/
def pyEndswith : PyValue → PyValue → Except PyErr Bool
  | .str a, .str b => .ok (a.endsWith b)
  | .str _, _ => .error .typeError
  | _, _ => .error .attributeError

/-- The `Filter.equal`: `lop == rop`. -/
def equal (lop rop : PyValue) : Except PyErr Bool := .ok (pyEq lop rop)

/-- The `Filter.not_equal`: `not self.equal(lop, rop)`. -/
def not_equal (lop rop : PyValue) : Except PyErr Bool :=
  Bool.not <$> equal lop rop

/-- The `Filter._in`: `lop in rop`. -/
def _in (lop rop : PyValue) : Except PyErr Bool := pyIn lop rop

/-- The `Filter.not_in`: `not self._in(lop, rop)`. -/
def not_in (lop rop : PyValue) : Except PyErr Bool := Bool.not <$> _in lop rop

/-- The `Filter.less`: `lop < rop`. -/
def less (lop rop : PyValue) : Except PyErr Bool := pyLt lop rop

/-- The `Filter.less_or_equal`: `self.less(lop, rop) or self.equal(lop, rop)`,
with Python's short-circuiting `or`. -/
def less_or_equal (lop rop : PyValue) : Except PyErr Bool := do
  if (← less lop rop) then pure true else equal lop rop

/-- The `Filter.greater`: `not self.less_or_equal(lop, rop)`. -/
def greater (lop rop : PyValue) : Except PyErr Bool :=
  Bool.not <$> less_or_equal lop rop

/-- The `Filter.greater_or_equal`: `self.greater(lop, rop) or self.equal(lop, rop)`. -/
def greater_or_equal (lop rop : PyValue) : Except PyErr Bool := do
  if (← greater lop rop) then pure true else equal lop rop

/-- The `Filter.between`: `self.less_or_equal(minop, op) and
self.less_or_equal(op, maxop)`, with Python's short-circuiting `and`. -/
def between (op minop maxop : PyValue) : Except PyErr Bool := do
  if (← less_or_equal minop op) then less_or_equal op maxop else pure false

/-- The `Filter.not_between`: `not self.between(op, minop, maxop)`. -/
def not_between (op minop maxop : PyValue) : Except PyErr Bool :=
  Bool.not <$> between op minop maxop

/-- The `Filter.contains`: `self._in(lop, rop)`. -/
def contains (lop rop : PyValue) : Except PyErr Bool := _in lop rop

/-- The `Filter.is_null`: `op is None`. -/
def is_null (op : PyValue) : Except PyErr Bool :=
  .ok (match op with | .none => true | _ => false)

/-- The `Filter.is_not_null`: `not self.is_null(op)`. -/
def is_not_null (op : PyValue) : Except PyErr Bool := Bool.not <$> is_null op

/-- The `StringFilter.not_contains`: `not self.contains(lop, rop)`. -/
def not_contains (lop rop : PyValue) : Except PyErr Bool :=
  Bool.not <$> contains lop rop

/-- The `StringFilter.begins_with`: `lop.startswith(rop)`. -/
def begins_with (lop rop : PyValue) : Except PyErr Bool := pyStartswith lop rop

/-- The `StringFilter.not_begins_with`: `not lop.startswith(rop)`. -/
def not_begins_with (lop rop : PyValue) : Except PyErr Bool :=
  Bool.not <$> pyStartswith lop rop

/-- The `StringFilter.ends_with`: `lop.endswith(rop)`. -/
def ends_with (lop rop : PyValue) : Except PyErr Bool := pyEndswith lop rop

/-- The `StringFilter.not_ends_with`: `not lop.endswith(rop)`. -/
def not_ends_with (lop rop : PyValue) : Except PyErr Bool :=
  Bool.not <$> pyEndswith lop rop

/-- The `StringFilter.is_empty`: `len(op) == 0`. -/
def is_empty (op : PyValue) : Except PyErr Bool :=
  (fun n => n == 0) <$> pyLen op

/-- The `StringFilter.is_not_empty`: `not self.is_empty(op)`. -/
def is_not_empty (op : PyValue) : Except PyErr Bool := Bool.not <$> is_empty op

/-- The operator-handler functions tagged by `Operator.handles` in the
bodies of `Filter` and `StringFilter` (the only classes that declare
handlers). -/
inductive Handler where
  | equal
  | not_equal
  | _in
  | not_in
  | less
  | less_or_equal
  | greater
  | greater_or_equal
  | between
  | not_between
  | contains
  | is_null
  | is_not_null
  | not_contains
  | begins_with
  | not_begins_with
  | ends_with
  | not_ends_with
  | is_empty
  | is_not_empty
deriving DecidableEq, Repr

/-- Call a handler with the positional arguments the dispatcher supplies
after `self` (`operator_handler(filter, filter_operand, *rule_operand)`
or `operator_handler(filter, filter_operand, rule_operand)`); a call
whose argument count does not match the handler's parameter count raises
`TypeError`.  The handlers do not use `self`, so the bound filter is not
a parameter here. -/
def Handler.call : Handler → List PyValue → Except PyErr Bool
  | .equal, [l, r] => QB.equal l r
  | .not_equal, [l, r] => QB.not_equal l r
  | ._in, [l, r] => QB._in l r
  | .not_in, [l, r] => QB.not_in l r
  | .less, [l, r] => QB.less l r
  | .less_or_equal, [l, r] => QB.less_or_equal l r
  | .greater, [l, r] => QB.greater l r
  | .greater_or_equal, [l, r] => QB.greater_or_equal l r
  | .between, [v, lo, hi] => QB.between v lo hi
  | .not_between, [v, lo, hi] => QB.not_between v lo hi
  | .contains, [l, r] => QB.contains l r
  | .is_null, [v] => QB.is_null v
  | .is_not_null, [v] => QB.is_not_null v
  | .not_contains, [l, r] => QB.not_contains l r
  | .begins_with, [l, r] => QB.begins_with l r
  | .not_begins_with, [l, r] => QB.not_begins_with l r
  | .ends_with, [l, r] => QB.ends_with l r
  | .not_ends_with, [l, r] => QB.not_ends_with l r
  | .is_empty, [v] => QB.is_empty v
  | .is_not_empty, [v] => QB.is_not_empty v
  | _, _ => .error .typeError

/-- The filter classes defined in `filters.py`, in module definition
order.  `NumericFilter` is an alias of `DoubleFilter`, not a class of its
own. -/
inductive FilterClass where
  | base
  | typed
  | boolean
  | string
  | integer
  | double
  | date
  | time
  | datetime
deriving DecidableEq, Repr

/-- The handler functions tagged with `Operator.handles` in each class
body (what `FilterMeta.__new__` finds in `attrs`).  Only `Filter` and
`StringFilter` declare handlers. -/
def classBodyHandlers : FilterClass → List (Operator × Handler)
  | .base => [(.EQUAL, .equal), (.NOT_EQUAL, .not_equal), (.IN, ._in),
      (.NOT_IN, .not_in), (.LESS, .less), (.LESS_OR_EQUAL, .less_or_equal),
      (.GREATER, .greater), (.GREATER_OR_EQUAL, .greater_or_equal),
      (.BETWEEN, .between), (.NOT_BETWEEN, .not_between),
      (.CONTAINS, .contains), (.IS_NULL, .is_null), (.IS_NOT_NULL, .is_not_null)]
  | .string => [(.NOT_CONTAINS, .not_contains), (.BEGINS_WITH, .begins_with),
      (.NOT_BEGINS_WITH, .not_begins_with), (.ENDS_WITH, .ends_with),
      (.NOT_ENDS_WITH, .not_ends_with), (.IS_EMPTY, .is_empty),
      (.IS_NOT_EMPTY, .is_not_empty)]
  | _ => []

/-- The contents of `Filter._operator_handlers` after the module is
imported.  `FilterMeta.__new__` executes
`cls._operator_handlers[attr.operator] = attr` for each tagged function
of each class body; `_operator_handlers = {}` appears only in the body of
`Filter` itself, and no subclass re-declares it, so attribute lookup on
every subclass resolves to that one dict and every class body's handlers
are written into it, in module definition order (`Filter`, `TypedFilter`,
`BooleanFilter`, `StringFilter`, `IntegerFilter`, `DoubleFilter`,
`DateFilter`, `TimeFilter`, `DateTimeFilter`).  No operator is tagged
twice, so the association list below has pairwise distinct keys and
first-match lookup coincides with dict lookup. -/
def operator_handlers : List (Operator × Handler) :=
  classBodyHandlers .base ++ classBodyHandlers .typed
    ++ classBodyHandlers .boolean ++ classBodyHandlers .string
    ++ classBodyHandlers .integer ++ classBodyHandlers .double
    ++ classBodyHandlers .date ++ classBodyHandlers .time
    ++ classBodyHandlers .datetime

/-- Dict lookup in an operator-keyed handler table. -/
def opLookup (op : Operator) : List (Operator × Handler) → Option Handler
  | [] => none
  | (o, h) :: rest => if o = op then some h else opLookup op rest

/-- The `Filter.handler_for_operator` of `filters.py`:
`cls._operator_handlers.get(operator) or Filter._operator_handlers[operator]`.
Because every class shares the single dict created in `Filter`'s body
(see `operator_handlers`), both the `.get` on the receiver class and the
explicit `Filter._operator_handlers[...]` fallback read the same dict,
whatever the receiver class is; the indexing raises `KeyError` (a
`LookupError`) when the operator has no registered handler at all. -/
def handler_for_operator (_cls : FilterClass) (op : Operator) : Except PyErr Handler :=
  match opLookup op operator_handlers with
  | some h => .ok h
  | none => .error .keyError

/-- The `validation` dict of a filter descriptor, modelled field-wise:
`format` holds the compiled-regex matcher `re.compile(fmt).match`
(slashes already stripped), abstracted as a predicate on the host string;
`min` / `max` / `step` hold the raw dict entries. -/
structure Validation where
  format : Option (String → Bool)
  min : Option JValue
  max : Option JValue
  step : Option JValue

/-- An empty `validation` dict. -/
def noValidation : Validation := ⟨none, none, none, none⟩

/-- A registered filter descriptor — the attributes of a `Filter`
instance that evaluation reads (`id`, the concrete class used for
handler dispatch and for the set of `validate_*` methods, `self.type`
used by `python_value`, the permitted `operators` list, and the
`validation` dict).  Purely front-end attributes (label, placeholder,
values, …) are not read by evaluation and are omitted. -/
structure Filter where
  id : String
  klass : FilterClass
  type' : Option Type'
  operators : List Operator
  validation : Validation

/-- A digit-list to natural number conversion for Python string parsing. -/
def natOfDigits (cs : List Char) : Nat :=
  cs.foldl (fun a c => a * 10 + (c.toNat - 48)) 0

/-- The `Decimal(s)` on a plain decimal string: optional sign, an integer
part and/or a fractional part (exponent notation and surrounding
whitespace, which `Decimal` also accepts, are outside the scope of this
development and simply fail here). -/
def parseDecimalString (s : String) : Option Rat :=
  let signAndDigits : Int × List Char :=
    match s.toList with
    | '-' :: cs => (-1, cs)
    | '+' :: cs => (1, cs)
    | cs => (1, cs)
  match (signAndDigits.2).splitOn '.' with
  | [ip] =>
    if ip ≠ [] ∧ ip.all Char.isDigit then
      some (signAndDigits.1 * (natOfDigits ip : Int))
    else none
  | [ip, fp] =>
    if (ip ≠ [] ∨ fp ≠ []) ∧ ip.all Char.isDigit ∧ fp.all Char.isDigit then
      some ((signAndDigits.1 * (natOfDigits (ip ++ fp) : Int) : Rat) / ((10 : Rat) ^ fp.length))
    else none
  | _ => none

/-- The `int(s)` on a string: optional sign and digits (surrounding
whitespace, which `int` also accepts, is outside scope and fails here). -/
def parseIntString (s : String) : Option Int :=
  match s.toList with
  | '-' :: cs =>
    if cs ≠ [] ∧ cs.all Char.isDigit then some (-(natOfDigits cs : Int)) else none
  | '+' :: cs =>
    if cs ≠ [] ∧ cs.all Char.isDigit then some (natOfDigits cs : Int) else none
  | cs =>
    if cs ≠ [] ∧ cs.all Char.isDigit then some (natOfDigits cs : Int) else none

/-- The `Decimal(str(x))` on an entry of the `validation` dict: numbers
round-trip through `str` exactly (see the header note on floats), plain
decimal strings are parsed, and everything else makes `Decimal` raise
`InvalidOperation`. -/
def decimalOfValidationEntry : JValue → Except PyErr Rat
  | .num q => .ok q
  | .str s =>
    match parseDecimalString s with
    | some q => .ok q
    | none => .error .invalidOperation
  | _ => .error .invalidOperation

/-- The `Decimal(str(value))` on the host value under validation: numeric
host values round-trip exactly; a string host value is parsed as a
decimal literal; `str()` of any other value is not a valid decimal and
raises `InvalidOperation`. -/
def decimalOfPyValue : PyValue → Except PyErr Rat
  | .num q => .ok q
  | .str s =>
    match parseDecimalString s with
    | some q => .ok q
    | none => .error .invalidOperation
  | _ => .error .invalidOperation

/-- The `value >= bound` / `value <= bound` against a `Decimal` bound:
defined for numeric host values (bools are ints); any other left operand
raises `TypeError` in Python 3. -/
def pyGeDecimal (value : PyValue) (bound : Rat) : Except PyErr Bool :=
  match value with
  | .num q => .ok (decide (bound ≤ q))
  | .bool b => .ok (decide (bound ≤ boolNum b))
  | _ => .error .typeError

/-- See `pyGeDecimal`. -/
def pyLeDecimal (value : PyValue) (bound : Rat) : Except PyErr Bool :=
  match value with
  | .num q => .ok (decide (q ≤ bound))
  | .bool b => .ok (decide (boolNum b ≤ bound))
  | _ => .error .typeError

/-- The `IntegerFilter.validate_min`: if the `validation` dict declares
`min`, check `value >= Decimal(str(min))`; otherwise return `None`
(no constraint). -/
def validate_min (f : Filter) (value : PyValue) : Except PyErr (Option Bool) :=
  match f.validation.min with
  | none => .ok none
  | some m => do
    let bound ← decimalOfValidationEntry m
    let b ← pyGeDecimal value bound
    .ok (some b)

/-- The `IntegerFilter.validate_max`: if declared, `value <= Decimal(str(max))`. -/
def validate_max (f : Filter) (value : PyValue) : Except PyErr (Option Bool) :=
  match f.validation.max with
  | none => .ok none
  | some m => do
    let bound ← decimalOfValidationEntry m
    let b ← pyLeDecimal value bound
    .ok (some b)

/-- The `IntegerFilter.validate_step`: if declared, the remainder of
`Context().divmod(Decimal(str(value)), Decimal(str(step)))` must be 0 —
i.e. `value / step` must be an integer (a zero step makes `divmod`
raise). -/
def validate_step (f : Filter) (value : PyValue) : Except PyErr (Option Bool) :=
  match f.validation.step with
  | none => .ok none
  | some st => do
    let v ← decimalOfPyValue value
    let s ← decimalOfValidationEntry st
    if s = 0 then .error .invalidOperation
    else .ok (some ((v / s).den = 1))

/-- The `StringFilter.validate_format`: if the `validation` dict declares a
`format`, match the compiled pattern against the host value (which must
be a string — `re.match` raises `TypeError` otherwise); otherwise return
`None`. -/
def validate_format (f : Filter) (value : PyValue) : Except PyErr (Option Bool) :=
  match f.validation.format with
  | none => .ok none
  | some fmt =>
    match value with
    | .str s => .ok (some (fmt s))
    | _ => .error .typeError

/-- The `Filter.validate` of `filters.py`:
`all(f(value) is not False for f in self._validation_functions)` when the
instance has `validate_*` methods, else `True`.  The method set is
determined by the concrete class: `StringFilter` has `validate_format`;
`IntegerFilter` and its subclass `DoubleFilter` have `validate_min`,
`validate_max` and `validate_step`; every other class has none.  The
generator short-circuits at the first validator returning `False`
(a `None` result — validator with no constraint — passes); the frozenset
iterates in an unspecified order, fixed here as min, max, step, which
yields the same boolean whenever no validator raises. -/
def Filter.validate (f : Filter) (value : PyValue) : Except PyErr Bool :=
  match f.klass with
  | .string => do
    let r ← validate_format f value
    .ok (r ≠ some false)
  | .integer | .double => do
    let a ← validate_min f value
    if a = some false then .ok false
    else do
      let b ← validate_max f value
      if b = some false then .ok false
      else do
        let c ← validate_step f value
        .ok (c ≠ some false)
  | _ => .ok true

/-- Multiplicity of a prime factor `p` in `n` (used to decide whether a
denominator is of the form `2^a * 5^b`). -/
def padicMult (p n : Nat) : Nat :=
  if h : 1 < p ∧ n ≠ 0 ∧ n % p = 0 then padicMult p (n / p) + 1 else 0
termination_by n
decreasing_by
  exact Nat.div_lt_self (Nat.pos_of_ne_zero h.2.1) h.1

/-- Left-pad a digit string with zeros to at least `n` characters. -/
def padZeros (s : String) (n : Nat) : String :=
  if s.length < n then String.mk (List.replicate (n - s.length) '0') ++ s else s

/-- The `str()` of a Python number.  Integers print exactly; a fraction whose
denominator is `2^a * 5^b` prints as its finite decimal expansion, which
is the shortest representation and hence what `str()` prints for the
float of that decimal literal.  Other denominators cannot arise from a
JSON numeric literal; they fall back to the raw fraction rendering. -/
def ratRepr (q : Rat) : String :=
  if q.den = 1 then toString q.num
  else
    let k := max (padicMult 2 q.den) (padicMult 5 q.den)
    if (10 ^ k) % q.den = 0 then
      let scaled : Int := q.num * ((((10 : Nat) ^ k) / q.den : Nat) : Int)
      let digits := padZeros (toString scaled.natAbs) (k + 1)
      (if q.num < 0 then "-" else "")
        ++ digits.take (digits.length - k) ++ "." ++ digits.drop (digits.length - k)
    else toString q

/-- The quote character Python `repr` puts around strings (ASCII 39). -/
def pyQuote : String := String.singleton (Char.ofNat 39)

/-- The `repr()` of a string: quoted (escaping of embedded quotes is outside
the scope of this development). -/
def quoteStr (s : String) : String := pyQuote ++ s ++ pyQuote

mutual

/-- The `repr()` of a JSON-decoded value. -/
def pyRepr : JValue → String
  | .null => "None"
  | .bool b => if b then "True" else "False"
  | .num q => ratRepr q
  | .str s => quoteStr s
  | .arr xs => "[" ++ String.intercalate ", " (pyReprList xs) ++ "]"
  | .obj kvs => "\x7b" ++ String.intercalate ", " (pyReprObj kvs) ++ "\x7d"

/-- The `repr()` of each element of a list. -/
def pyReprList : List JValue → List String
  | [] => []
  | v :: vs => pyRepr v :: pyReprList vs

/-- The `repr()` of each `key: value` entry of a dict. -/
def pyReprObj : List (String × JValue) → List String
  | [] => []
  | (k, v) :: kvs => (quoteStr k ++ ": " ++ pyRepr v) :: pyReprObj kvs

end

/-- The `str()` of a JSON-decoded value: the string itself for strings,
`repr` for every other JSON-representable type. -/
def pyStr : JValue → String
  | .str s => s
  | v => pyRepr v

/-- The `_python_types[Type.INTEGER] = int`: ints pass through, floats
truncate toward zero, strings parse as integer literals (`ValueError`
otherwise), bools map to 0/1, containers raise `TypeError`. -/
def intConv : JValue → Except PyErr PyValue
  | .num q => .ok (.num (Int.tdiv q.num q.den))
  | .str s =>
    match parseIntString s with
    | some n => .ok (.num n)
    | none => .error .valueError
  | .bool b => .ok (.num (boolNum b))
  | _ => .error .typeError

/-- The `_python_types[Type.DOUBLE] = Decimal`: numbers convert exactly (see
the header note on floats), strings parse as decimal literals
(`InvalidOperation` otherwise), bools are ints.  `Decimal` accepts a
list/tuple only in the 3-element `(sign, digits, exponent)` form, which
the arrays of this development never take, so arrays fail (`ValueError`);
other types raise `TypeError`. -/
def decimalConv : JValue → Except PyErr PyValue
  | .num q => .ok (.num q)
  | .str s =>
    match parseDecimalString s with
    | some q => .ok (.num q)
    | none => .error .invalidOperation
  | .bool b => .ok (.num (boolNum b))
  | .arr _ => .error .valueError
  | _ => .error .typeError

/-- The `_python_types[Type.TIME] = time`: with a single argument, `time(h)`
accepts an integer hour (`ValueError` outside 0..23, and bools are
ints); any non-integer argument raises `TypeError`. -/
def timeConv : JValue → Except PyErr PyValue
  | .num q =>
    if q.den = 1 then
      if 0 ≤ q.num ∧ q.num ≤ 23 then .ok (.timeVal q.num) else .error .valueError
    else .error .typeError
  | .bool b => .ok (.timeVal (if b then 1 else 0))
  | _ => .error .typeError

/-- The `_python_types[Type.BOOLEAN]`:
`lambda x: bool(int(x) if x.isdigit() else (1 if x == 'true' else 0))` —
the argument must be a string (`.isdigit` raises `AttributeError`
otherwise); digit strings convert by numeric value, the exact token
`true` maps to `True`, anything else to `False`. -/
def boolConv : JValue → Except PyErr PyValue
  | .str s =>
    if s ≠ "" ∧ s.toList.all Char.isDigit then
      .ok (.bool (natOfDigits s.toList ≠ 0))
    else
      .ok (.bool (s = "true"))
  | _ => .error .attributeError

/-- The `Filter._python_types`: the per-`Type` converter applied to the raw
rule value.  `date(x)` and `datetime(x)` require three arguments
(year, month, day), so any single-argument call raises `TypeError`. -/
def to_python : Type' → JValue → Except PyErr PyValue
  | .STRING, v => .ok (.str (pyStr v))
  | .INTEGER, v => intConv v
  | .DOUBLE, v => decimalConv v
  | .DATE, _ => .error .typeError
  | .TIME, v => timeConv v
  | .DATETIME, _ => .error .typeError
  | .BOOLEAN, v => boolConv v

/-- The `Filter.python_value` of `filters.py`: `None` passes through
unmapped; otherwise the converter found in `_python_types[self.type]` is
applied to the whole raw value (a descriptor whose `type` is unset makes
the dict lookup raise `KeyError`). -/
def Filter.python_value (f : Filter) (filter_value : JValue) : Except PyErr PyValue :=
  match filter_value with
  | .null => .ok .none
  | v =>
    match f.type' with
    | none => .error .keyError
    | some t => to_python t v

/-- The `Filter._filter_registry[rule.id]`: dict lookup of the raw rule id
among the registered string ids — `KeyError` for an absent (or
non-string hashable) key, `TypeError` for an unhashable id. -/
def registryLookup (registry : List (String × Filter)) : JValue → Except PyErr Filter
  | .str s =>
    match enumLookup s registry with
    | some f => .ok f
    | none => .error .keyError
  | .arr _ => .error .typeError
  | .obj _ => .error .typeError
  | _ => .error .keyError

/-- The `Filters.run_filter_for_rule` of `filters.py`.  `registry` is the
current contents of `Filter._filter_registry`; `host` models the
`Filters` instance: `filter.func(self)` reads the accessor that was
registered under the filter's id, so the host is a map from filter id to
the current field value.  The steps mirror the source: registry lookup,
accessor read, validation gate (returning `(False, operand)` on
failure), rule-value coercion, handler dispatch, and the final call —
spreading the coerced value positionally when it is a list/tuple. -/
def run_filter_for_rule (registry : List (String × Filter))
    (host : String → PyValue) (rule : Leaf) : Except PyErr (Bool × PyValue) := do
  let filter ← registryLookup registry rule.id
  let filter_operand := host filter.id
  if !(← filter.validate filter_operand) then
    return (false, filter_operand)
  let rule_operand ← filter.python_value rule.value
  let operator_handler ← handler_for_operator filter.klass rule.operator
  match rule_operand with
  | .list xs =>
    let result ← operator_handler.call (filter_operand :: xs)
    return (result, filter_operand)
  | _ =>
    let result ← operator_handler.call [filter_operand, rule_operand]
    return (result, filter_operand)

/-- C4: whenever the host value read through the filter's accessor fails
the filter's declared validation (`filter.validate(filter_operand)` is
`False` — format for string filters, min/max/step for numeric filters),
the leaf evaluates to `False` for every operator and every rule literal:
`run_filter_for_rule` returns at the validation gate, before value
coercion and operator dispatch are reached. -/
theorem qb_c4 (registry : List (String × Filter)) (host : String → PyValue)
    (l : Leaf) (f : Filter)
    (hlook : registryLookup registry l.id = .ok f)
    (hval : f.validate (host f.id) = .ok false) :
    run_filter_for_rule registry host l = .ok (false, host f.id) := by
  unfold run_filter_for_rule
  rw [hlook]
  simp [Bind.bind, Except.bind, hval, pure, Except.pure]

/-- The double-typed `price` filter of the test suite's host, with its
`min: 0` validation constraint (the `step` constraint is omitted: one
failing constraint suffices for the witness). -/
def priceFilter : Filter :=
  ⟨"price", .double, some .DOUBLE, [], ⟨none, some (.num 0), none, none⟩⟩

/-- A leaf rule `price equal -1`, whose operator would hold on the host
below if validation did not gate it. -/
def priceLeaf : Leaf :=
  ⟨.str "price", .str "price", .NUMBER, .EQUAL, .DOUBLE, .num (-1)⟩

/-- Witness for C4: a host whose `price` is `-1` fails the `min: 0`
constraint, so the leaf `price equal -1` evaluates false even though
`-1 == -1`. -/
theorem qb_c4_witness :
    run_filter_for_rule [("price", priceFilter)] (fun _ => .num (-1)) priceLeaf
      = .ok (false, .num (-1)) :=
  qb_c4 [("price", priceFilter)] (fun _ => .num (-1)) priceLeaf priceFilter
    (by simp [registryLookup, priceLeaf, enumLookup])
    (by simp +decide [priceFilter, Filter.validate, validate_min,
      decimalOfValidationEntry, pyGeDecimal, Bind.bind, Except.bind])

/-- C5 (amended): an unknown filter id makes `run_filter_for_rule` raise
the registry lookup's `KeyError` (a `LookupError`); but the descriptor's
permitted `operators` set is never consulted during evaluation — the
result of `run_filter_for_rule` is entirely independent of the
`operators` field, so a leaf whose operator lies outside that set is
evaluated normally with the globally registered handler. -/
theorem qb_c5 :
    (∀ (registry : List (String × Filter)) (host : String → PyValue)
        (l : Leaf) (e : PyErr),
      registryLookup registry l.id = .error e →
      run_filter_for_rule registry host l = .error e)
    ∧ (∀ (name idv : String) (k : FilterClass) (t : Option Type')
        (ops ops' : List Operator) (vld : Validation)
        (host : String → PyValue) (l : Leaf),
      run_filter_for_rule [(name, ⟨idv, k, t, ops, vld⟩)] host l
        = run_filter_for_rule [(name, ⟨idv, k, t, ops', vld⟩)] host l) := by
  constructor
  · intro registry host l e hlook
    unfold run_filter_for_rule
    rw [hlook]
    rfl
  · intro name idv k t ops ops' vld host l
    unfold run_filter_for_rule
    cases hid : l.id
    case str s =>
      by_cases h : s = name <;> simp only [registryLookup, enumLookup, h,
        if_true, if_false, reduceIte] <;> rfl
    all_goals rfl

/-- The integer `category` filter of the test suite's host: its permitted
operator list does not include `less`. -/
def categoryFilter : Filter :=
  ⟨"category", .integer, some .INTEGER,
    [.EQUAL, .NOT_EQUAL, .IN, .NOT_IN, .IS_NULL, .IS_NOT_NULL], noValidation⟩

/-- A leaf rule `category less 3`: its operator is outside the filter's
permitted operator set. -/
def categoryLeaf : Leaf :=
  ⟨.str "category", .str "category", .SELECT, .LESS, .INTEGER, .num 3⟩

/-- Counterexample to C5 as stated: the operator `less` is not in the
`category` filter's permitted operator set, yet the leaf does not raise —
it is silently evaluated (here to `False`, since `5 < 3` fails). -/
theorem qb_c5_counterexample :
    (categoryFilter.operators.contains categoryLeaf.operator) = false
    ∧ run_filter_for_rule [("category", categoryFilter)] (fun _ => .num 5)
        categoryLeaf = .ok (false, .num 5) := by
  constructor
  · decide
  · simp +decide [run_filter_for_rule, registryLookup, enumLookup,
      categoryFilter, categoryLeaf, noValidation, Filter.validate,
      validate_min, validate_max, validate_step, Filter.python_value,
      to_python, intConv, handler_for_operator, opLookup, operator_handlers,
      classBodyHandlers, Handler.call, less, pyLt, Bind.bind, Except.bind,
      pure, Except.pure]

/-- Witness for the first part of C5 (amended): an empty registry makes
the leaf raise `KeyError`. -/
theorem qb_c5_witness :
    run_filter_for_rule [] (fun _ => .num 5) categoryLeaf = .error .keyError :=
  qb_c5.1 [] (fun _ => .num 5) categoryLeaf .keyError (by rfl)

/-- C7 (the code against the claim): `handler_for_operator` on
`IntegerFilter` and the operator `begins_with` returns `StringFilter`'s
`begins_with` evaluator instead of raising `LookupError`, although
neither `IntegerFilter`'s class body nor the base `Filter`'s class body
declares a handler for `begins_with` — only the sibling `StringFilter`
does.  This is the shared-dict effect documented at
`operator_handlers`. -/
theorem qb_c7 :
    handler_for_operator .integer .BEGINS_WITH = .ok .begins_with
    ∧ classBodyHandlers .integer = []
    ∧ ((classBodyHandlers .base).all (fun p => p.1 != .BEGINS_WITH)) = true
    ∧ (Operator.BEGINS_WITH, Handler.begins_with) ∈ classBodyHandlers .string := by
  refine ⟨?_, rfl, by decide, by decide⟩
  simp [handler_for_operator, opLookup, operator_handlers, classBodyHandlers]

/-- C10 (amended): `run_filter_for_rule` always appends the coerced rule
value to the handler call's positional arguments, also for the unary
handlers `is_null` / `is_not_null`; with the rule value `null` (which
passes coercion unchanged) the handler call receives two arguments
instead of one and raises `TypeError` whenever validation passes. -/
theorem qb_c10 (registry : List (String × Filter)) (host : String → PyValue)
    (l : Leaf) (f : Filter)
    (hlook : registryLookup registry l.id = .ok f)
    (hval : f.validate (host f.id) = .ok true)
    (hop : l.operator = .IS_NULL ∨ l.operator = .IS_NOT_NULL)
    (hv : l.value = .null) :
    run_filter_for_rule registry host l = .error .typeError := by
  unfold run_filter_for_rule
  rw [hlook]
  simp only [Bind.bind, Except.bind, hval, hv]
  rcases hop with hop | hop <;>
    simp [hop, Filter.python_value, handler_for_operator, opLookup,
      operator_handlers, classBodyHandlers, Handler.call, Bind.bind,
      Except.bind, pure, Except.pure]

/-- The string-typed `name` filter of the test suite's host (no
validation). -/
def nameFilter : Filter := ⟨"name", .string, some .STRING, [], noValidation⟩

/-- A leaf `name is_null null`. -/
def nameIsNullLeaf : Leaf :=
  ⟨.str "name", .str "name", .TEXT, .IS_NULL, .STRING, .null⟩

/-- Witness for C10 (amended): an `is_null` leaf with value `null` on a
string filter raises `TypeError` although the host value is a string. -/
theorem qb_c10_witness :
    run_filter_for_rule [("name", nameFilter)] (fun _ => .str "hello")
      nameIsNullLeaf = .error .typeError :=
  qb_c10 [("name", nameFilter)] (fun _ => .str "hello") nameIsNullLeaf nameFilter
    (by simp [registryLookup, nameIsNullLeaf, enumLookup])
    (by simp [nameFilter, noValidation, Filter.validate, validate_format,
      Bind.bind, Except.bind])
    (Or.inl rfl)
    rfl

/-- An integer-typed `is_null` leaf whose value is the empty array. -/
def categoryIsNullLeaf : Leaf :=
  ⟨.str "category", .str "category", .SELECT, .IS_NULL, .INTEGER, .arr []⟩

/-- Counterexample to C10 as stated: with the empty array as value the
leaf still does not evaluate to a boolean — the integer coercion
`int([])` raises `TypeError` before the handler is even called (the
declared Type's converter is applied to the array as a whole, so no
converter ever returns a list for the dispatcher to spread). -/
theorem qb_c10_counterexample :
    run_filter_for_rule [("category", categoryFilter)] (fun _ => .none)
      categoryIsNullLeaf = .error .typeError := by
  simp [run_filter_for_rule, registryLookup, enumLookup, categoryFilter,
    categoryIsNullLeaf, noValidation, Filter.validate, validate_min,
    validate_max, validate_step, Filter.python_value, to_python, intConv,
    Bind.bind, Except.bind, pure, Except.pure]

/-- A double filter without validation, as `between` rules would use. -/
def doubleFilter : Filter := ⟨"price", .double, some .DOUBLE, [], noValidation⟩

/-- A leaf `price between ["1", "10"]`: a two-element array value for the
ternary operator, as the front end emits. -/
def betweenLeaf : Leaf :=
  ⟨.str "price", .str "price", .NUMBER, .BETWEEN, .DOUBLE,
    .arr [.str "1", .str "10"]⟩

/-- C6 (the code against the claim): the rule value array is NOT coerced
element-wise — `python_value` applies the Type's converter to the whole
array.  For a double-typed rule, `Decimal(['1', '10'])` raises, so
`run_filter_for_rule` raises instead of calling
`between(hostValue, Decimal(1), Decimal(10))`; for a string-typed rule
the array becomes its single string representation, which is then passed
as one positional argument, never spread. -/
theorem qb_c6 :
    doubleFilter.python_value (.arr [.str "1", .str "10"]) = .error .valueError
    ∧ run_filter_for_rule [("price", doubleFilter)] (fun _ => .num 5)
        betweenLeaf = .error .valueError
    ∧ nameFilter.python_value (.arr [.num 1, .num 10]) = .ok (.str "[1, 10]") := by
  refine ⟨rfl, ?_, ?_⟩
  · simp [run_filter_for_rule, registryLookup, enumLookup, doubleFilter,
      betweenLeaf, noValidation, Filter.validate, validate_min, validate_max,
      validate_step, Filter.python_value, to_python, decimalConv,
      Bind.bind, Except.bind, pure, Except.pure]
  · simp [nameFilter, Filter.python_value, to_python, pyStr, pyRepr,
      pyReprList, ratRepr]
    decide

/-- Lemma: `Filter.equal` on two numbers is numeric equality. -/
theorem equal_num (a b : Rat) : equal (.num a) (.num b) = .ok (a == b) := by
  simp [equal, pyEq]

/-- Lemma: `Filter.less_or_equal` on two numbers is `≤` (the source computes it
as `less or equal`). -/
theorem less_or_equal_num (a b : Rat) :
    less_or_equal (.num a) (.num b) = .ok (decide (a ≤ b)) := by
  simp only [less_or_equal, less, pyLt, equal, pyEq, Bind.bind, Except.bind]
  by_cases h : a < b
  · simp [h, le_of_lt h, pure, Except.pure]
  · by_cases h2 : a = b
    · subst h2
      simp [h, pure, Except.pure]
    · have hnle : ¬a ≤ b := fun hle => h2 (le_antisymm hle (not_lt.mp h))
      simp [h, h2, hnle, pure, Except.pure]

/-- The default `between` evaluator on a numeric triple decides the
inclusive range membership `lo ≤ v ∧ v ≤ hi`. -/
theorem between_num (v lo hi : Rat) :
    Handler.call .between [.num v, .num lo, .num hi]
      = .ok (decide (lo ≤ v ∧ v ≤ hi)) := by
  simp only [Handler.call, between, less_or_equal_num, Bind.bind, Except.bind]
  by_cases h : lo ≤ v <;> simp [h, pure, Except.pure]

/-- C8: for every numeric triple, `between(v, lo, hi)` is true iff
`lo ≤ v ≤ hi`, inclusive on both ends — both endpoints of a valid range
satisfy it, values strictly below `lo` or strictly above `hi` do not —
and `not_between` is the exact boolean negation of `between` on the same
operands. -/
theorem qb_c8 :
    (∀ v lo hi : Rat,
      Handler.call .between [.num v, .num lo, .num hi]
        = .ok (decide (lo ≤ v ∧ v ≤ hi)))
    ∧ (∀ lo hi : Rat, lo ≤ hi →
        Handler.call .between [.num lo, .num lo, .num hi] = .ok true
        ∧ Handler.call .between [.num hi, .num lo, .num hi] = .ok true)
    ∧ (∀ v lo hi : Rat, v < lo →
        Handler.call .between [.num v, .num lo, .num hi] = .ok false)
    ∧ (∀ v lo hi : Rat, hi < v →
        Handler.call .between [.num v, .num lo, .num hi] = .ok false)
    ∧ (∀ args : List PyValue,
        Handler.call .not_between args = Bool.not <$> Handler.call .between args) := by
  refine ⟨between_num, ?_, ?_, ?_, ?_⟩
  · intro lo hi h
    constructor <;> rw [between_num] <;> simp [h]
  · intro v lo hi h
    rw [between_num]
    simp [not_le.mpr h]
  · intro v lo hi h
    rw [between_num]
    simp [not_le.mpr h]
  · intro args
    rcases args with _ | ⟨a, _ | ⟨b, _ | ⟨c, _ | ⟨d, rest⟩⟩⟩⟩ <;> rfl

/-- Witness for the hypothesis-bearing parts of C8, at the range
`[1, 3]`. -/
theorem qb_c8_witness :
    ((1 : Rat) ≤ 3
      ∧ Handler.call .between [.num 1, .num 1, .num 3] = .ok true
      ∧ Handler.call .between [.num 3, .num 1, .num 3] = .ok true)
    ∧ ((0 : Rat) < 1
      ∧ Handler.call .between [.num 0, .num 1, .num 3] = .ok false)
    ∧ ((3 : Rat) < 4
      ∧ Handler.call .between [.num 4, .num 1, .num 3] = .ok false) :=
  ⟨⟨by norm_num, (qb_c8.2.1 1 3 (by norm_num)).1, (qb_c8.2.1 1 3 (by norm_num)).2⟩,
    ⟨by norm_num, qb_c8.2.2.1 0 1 3 (by norm_num)⟩,
    ⟨by norm_num, qb_c8.2.2.2.1 4 1 3 (by norm_num)⟩⟩

/-- C9: each negated evaluator returns exactly the boolean negation of
its positive counterpart on the same argument list — also in the error
cases, where both raise the same exception. -/
theorem qb_c9 (args : List PyValue) :
    Handler.call .not_equal args = Bool.not <$> Handler.call .equal args
    ∧ Handler.call .not_in args = Bool.not <$> Handler.call ._in args
    ∧ Handler.call .not_between args = Bool.not <$> Handler.call .between args
    ∧ Handler.call .not_contains args = Bool.not <$> Handler.call .contains args
    ∧ Handler.call .not_begins_with args = Bool.not <$> Handler.call .begins_with args
    ∧ Handler.call .not_ends_with args = Bool.not <$> Handler.call .ends_with args
    ∧ Handler.call .is_not_null args = Bool.not <$> Handler.call .is_null args
    ∧ Handler.call .is_not_empty args = Bool.not <$> Handler.call .is_empty args := by
  rcases args with _ | ⟨a, _ | ⟨b, _ | ⟨c, _ | ⟨d, rest⟩⟩⟩⟩ <;>
    exact ⟨rfl, rfl, rfl, rfl, rfl, rfl, rfl, rfl⟩

end QB
